import Mathlib

/-!
Verification development for the pg-parallel PostgreSQL access layer.

The development shallowly embeds the parts of the implementation that the
checked properties speak about:

- the error taxonomy and classifier (`src/src/utils/ErrorUtils.ts`, also
  staged as `src/unnamed/part_011`),
- the circuit breaker state machine (`src/unnamed/part_012`),
- the retry executor (`src/src/utils/RetryUtils.ts`),
- the dispatcher: pool partitioning, reply correlation, round robin
  scheduling and shutdown (`src/unnamed/part_004`),
- the worker runtime message handlers and the session client lifecycle
  (`src/unnamed/part_001`).

JavaScript strings are embedded as `List Char` so that every definition
evaluates inside the kernel; `js` turns a Lean string literal into that
representation. JavaScript numbers appearing as integral counters and
timestamps are embedded as `ℤ` or `ℕ`; the retry delays, which may be
fractional milliseconds, as `ℚ`.
-/

/-- The character list of a string literal: the embedding of a JavaScript
string value. -/
def js (s : String) : List Char := s.data

/-- JavaScript `String.prototype.toLowerCase` on the embedded strings. -/
def lowerStr (s : List Char) : List Char := s.map Char.toLower

/-- JavaScript `String.prototype.startsWith`. -/
def beginsWith : List Char → List Char → Bool
  | _, [] => true
  | [], _ :: _ => false
  | c :: s, d :: p => c = d && beginsWith s p

/-- JavaScript `String.prototype.includes`: `pat` occurs somewhere in `s`. -/
def hasSub (s pat : List Char) : Bool :=
  if beginsWith s pat then true
  else
    match s with
    | [] => false
    | _ :: rest => hasSub rest pat

/-- Whether `s.trim()` is the empty string: every character is whitespace. -/
def isBlankStr (s : List Char) : Bool := s.all Char.isWhitespace

/-- JavaScript truthiness of an optional string field: `undefined` and the
empty string are falsy. -/
def strTruthy : Option (List Char) → Option (List Char)
  | some s => if s.isEmpty then none else some s
  | none => none

/-- The error taxonomy of `src/src/benchmark.ts` (the staged types module):
`ErrorCategory`. -/
inductive ErrorCategory where
  | TRANSIENT
  | CONNECTION
  | TIMEOUT
  | DEADLOCK
  | SERIALIZATION
  | CONSTRAINT
  | SYNTAX
  | UNKNOWN
deriving DecidableEq, Repr, BEq

/-- The JavaScript error values the classifier inspects. `nullv` stands for
any falsy value (null, undefined, empty string, 0): reading `code`, `name`,
`message` or `errors` on it yields `undefined`. `obj` is a generic error
object carrying the four fields the classifier reads. `wrapped` is an
instance of class `PgParallelError`: its `name` is the string
"PgParallelError", it has no `code`, and it stores the category assigned at
wrap time together with the original cause. -/
inductive ErrVal where
  | nullv
  | obj (code name message : Option (List Char)) (errors : Option (List ErrVal))
  | wrapped (message : List Char) (category : ErrorCategory) (cause : Option ErrVal)

/-- Field read `err?.code`. -/
def errCode : ErrVal → Option (List Char)
  | .obj c _ _ _ => c
  | _ => none

/-- Field read `err?.name`. A `PgParallelError` sets its name in its
constructor. -/
def errName : ErrVal → Option (List Char)
  | .obj _ n _ _ => n
  | .wrapped _ _ _ => some (js "PgParallelError")
  | .nullv => none

/-- Field read `err?.message`. -/
def errMessage : ErrVal → Option (List Char)
  | .obj _ _ m _ => m
  | .wrapped m _ _ => some m
  | .nullv => none

/-- Whether the value is an instance of `PgParallelError`. -/
def isWrappedErr : ErrVal → Bool
  | .wrapped _ _ _ => true
  | _ => false

/-- The `category` field of a `PgParallelError` instance. -/
def wrappedCategory : ErrVal → Option ErrorCategory
  | .wrapped _ c _ => some c
  | _ => none

namespace ErrorUtils

/-- The name and message checks of `ErrorUtils.categorizeError`
(`part_011` lines 110-119): the Sequelize connection class, then the
case-insensitive message keywords, else UNKNOWN. -/
def categorizeByNameMessage (name message : Option (List Char)) : ErrorCategory :=
  if name = some (js "SequelizeConnectionError") then .CONNECTION
  else
    match strTruthy message with
    | some m =>
      let lm := lowerStr m
      if hasSub lm (js "timeout") then .TIMEOUT
      else if hasSub lm (js "connection") then .CONNECTION
      else if hasSub lm (js "deadlock") then .DEADLOCK
      else .UNKNOWN
    | none => .UNKNOWN

/-- The code table and code-family checks of `ErrorUtils.categorizeError`
(`part_011` lines 67-107), falling through to the name and message checks
when the code is falsy or matches nothing. -/
def categorizeByFields (code name message : Option (List Char)) : ErrorCategory :=
  match strTruthy code with
  | some c =>
    if c = js "40001" then .SERIALIZATION
    else if c = js "40P01" then .DEADLOCK
    else if c = js "ETIMEDOUT" ∨ c = js "57014" then .TIMEOUT
    else if c = js "ECONNRESET" ∨ c = js "ECONNREFUSED" ∨ c = js "57P01" ∨ c = js "57P02" then
      .CONNECTION
    else if beginsWith c (js "23") then .CONSTRAINT
    else if beginsWith c (js "42") then .SYNTAX
    else categorizeByNameMessage name message
  | none => categorizeByNameMessage name message

/-- `ErrorUtils.categorizeError` (`part_011` lines 88-120). An
AggregateError with a nonempty `errors` array is categorized by its first
sub-error; otherwise the code, name and message fields decide. -/
def categorizeError : ErrVal → ErrorCategory
  | .nullv => categorizeByFields none none none
  | .wrapped m _ _ => categorizeByFields none (some (js "PgParallelError")) (some m)
  | .obj code name msg errs =>
    match name, errs with
    | some n, some (e :: _) =>
      if n = js "AggregateError" then categorizeError e
      else categorizeByFields code (some n) msg
    | _, _ => categorizeByFields code name msg

/-- The fast transient code set of `ErrorUtils.isTransient`
(`part_011` lines 12-21). -/
def fastTransientCodes : List (List Char) :=
  [js "ETIMEDOUT", js "57014", js "ECONNRESET", js "ECONNREFUSED",
   js "57P01", js "57P02", js "40001", js "40P01"]

/-- The category set `TRANSIENT_CATEGORIES` of `part_011` lines 23-29. -/
def transientCategories : List ErrorCategory :=
  [.TRANSIENT, .CONNECTION, .TIMEOUT, .DEADLOCK, .SERIALIZATION]

/-- The fast code path of `isTransient`: a truthy code contained in the
fast transient code set. -/
def fastCodeHit (error : ErrVal) : Bool :=
  match strTruthy (errCode error) with
  | some c => fastTransientCodes.contains c
  | none => false

/-- The fast message path of `isTransient`: a truthy string message whose
lower-cased form contains one of the three keywords. -/
def fastMessageHit (error : ErrVal) : Bool :=
  match strTruthy (errMessage error) with
  | some m =>
    let lm := lowerStr m
    hasSub lm (js "timeout") || hasSub lm (js "connection") || hasSub lm (js "deadlock")
  | none => false

/-- `ErrorUtils.isTransient` (`part_011` lines 37-64): false on a falsy
value; else the fast code path, then the fast message path, then the full
categorization checked against the transient category set. The early
returns of the source are the disjuncts in order. -/
def isTransient (error : ErrVal) : Bool :=
  match error with
  | .nullv => false
  | _ =>
    fastCodeHit error || fastMessageHit error
      || transientCategories.contains (categorizeError error)

/-- The one-level AggregateError unwrap of `ErrorUtils.wrapError`
(`part_011` lines 132-140): the first sub-error when the value is an
AggregateError with a nonempty array, else the value itself. -/
def aggBase (error : ErrVal) : ErrVal :=
  match error with
  | .obj _ (some n) _ (some (b :: _)) => if n = js "AggregateError" then b else error
  | _ => error

/-- `ErrorUtils.wrapError` (`part_011` lines 128-151). A value already
wrapped is returned as is; so is a wrapped first sub-error of an
AggregateError. Otherwise the base error is categorized, its message is
copied (with the "Unknown error" fallback for a missing, non-string or
blank message) and a `PgParallelError` carrying the outermost error as
cause is built. -/
def wrapError (error : ErrVal) : ErrVal :=
  match error with
  | .wrapped m c cause => .wrapped m c cause
  | _ =>
    let base := aggBase error
    match base with
    | .wrapped m c cause => .wrapped m c cause
    | _ =>
      let category := categorizeError base
      let message :=
        match errMessage base with
        | some m => if isBlankStr m then js "Unknown error" else m
        | none => js "Unknown error"
      .wrapped message category (some error)

end ErrorUtils

/-- The three breaker states of `CircuitBreakerUtils` (`part_012`). -/
inductive BreakerState where
  | CLOSED
  | OPEN
  | HALF_OPEN
deriving DecidableEq, Repr

/-- `CircuitBreakerState` of `part_012` lines 15-21. Counters and the
opened-at timestamp are JavaScript numbers, embedded as integers. -/
structure CircuitBreakerState where
  state : BreakerState
  consecutiveFailures : ℤ
  halfOpenAllowedCalls : ℤ
  halfOpenSuccesses : ℤ
  openedAt : ℤ
deriving DecidableEq, Repr

/-- `CircuitBreakerConfig` of the types module. -/
structure CircuitBreakerConfig where
  failureThreshold : ℤ
  cooldownMs : ℤ
  halfOpenMaxCalls : ℤ
  halfOpenSuccessesToClose : ℤ
deriving DecidableEq, Repr

namespace CircuitBreakerUtils

/-- `CircuitBreakerUtils.createInitialState` (`part_012` lines 31-39). -/
def createInitialState : CircuitBreakerState :=
  { state := .CLOSED, consecutiveFailures := 0, halfOpenAllowedCalls := 0,
    halfOpenSuccesses := 0, openedAt := 0 }

/-- `CircuitBreakerUtils.getDefaultConfig` (`part_012` lines 45-52). -/
def getDefaultConfig : CircuitBreakerConfig :=
  { failureThreshold := 5, cooldownMs := 10000, halfOpenMaxCalls := 2,
    halfOpenSuccessesToClose := 2 }

/-- `CircuitBreakerUtils.ensureBreakerState` (`part_012` lines 60-84),
with `now` standing for the `Date.now()` read. The source mutates the
state and may throw; the embedding returns the mutated state together
with the thrown message when the half-open trial limit is exhausted. -/
def ensureBreakerState (state : CircuitBreakerState) (config : CircuitBreakerConfig)
    (now : ℤ) : CircuitBreakerState × Option (List Char) :=
  let st :=
    if state.state = .OPEN ∧ now - state.openedAt ≥ config.cooldownMs then
      { state with
        state := .HALF_OPEN
        halfOpenSuccesses := 0
        halfOpenAllowedCalls := config.halfOpenMaxCalls }
    else state
  if st.state = .HALF_OPEN then
    if st.halfOpenAllowedCalls ≤ 0 then
      (st, some (js "Circuit breaker trial limit reached"))
    else ({ st with halfOpenAllowedCalls := st.halfOpenAllowedCalls - 1 }, none)
  else (st, none)

/-- `CircuitBreakerUtils.openBreaker` (`part_012` lines 142-154). -/
def openBreaker (state : CircuitBreakerState) (config : CircuitBreakerConfig)
    (now : ℤ) : CircuitBreakerState :=
  { state with
    state := .OPEN
    openedAt := now
    halfOpenAllowedCalls := config.halfOpenMaxCalls
    halfOpenSuccesses := 0 }

/-- `CircuitBreakerUtils.onBreakerFailure` (`part_012` lines 117-134). -/
def onBreakerFailure (state : CircuitBreakerState) (config : CircuitBreakerConfig)
    (now : ℤ) : CircuitBreakerState :=
  let st := { state with consecutiveFailures := state.consecutiveFailures + 1 }
  if st.state = .HALF_OPEN then openBreaker st config now
  else if st.consecutiveFailures ≥ config.failureThreshold ∧ st.state = .CLOSED then
    openBreaker st config now
  else st

/-- `CircuitBreakerUtils.onBreakerSuccess` (`part_012` lines 92-109). -/
def onBreakerSuccess (state : CircuitBreakerState) (config : CircuitBreakerConfig) :
    CircuitBreakerState :=
  if state.state = .HALF_OPEN then
    let st := { state with halfOpenSuccesses := state.halfOpenSuccesses + 1 }
    if st.halfOpenSuccesses ≥ config.halfOpenSuccessesToClose then
      { st with state := .CLOSED, consecutiveFailures := 0 }
    else st
  else { state with consecutiveFailures := 0 }

end CircuitBreakerUtils

/-- `RetryConfig` of the types module. Delays may be fractional
milliseconds; `retryOn` is the optional custom predicate. -/
structure RetryConfig where
  maxAttempts : ℕ
  initialDelayMs : ℚ
  maxDelayMs : ℚ
  backoffFactor : ℚ
  jitter : Bool
  retryOn : Option (ErrVal → Bool)

namespace RetryUtils

/-- What one run of the retry executor did: the final outcome, the state
the retried operation left behind, the number of times the operation was
invoked, and the total requested sleep in milliseconds. -/
structure RetryRunResult (σ : Type) (α : Type) where
  outcome : Except ErrVal α
  finalState : σ
  calls : ℕ
  sleepMs : ℚ

/-- The loop of `RetryUtils.executeWithRetry` (`RetryUtils.ts` lines
33-50). `fn` is the retried operation: it receives the 1-based attempt
number and threads a state `σ` (the callers thread the breaker state
through it). `rand` is the oracle for the `Math.random()` draw of each
jittered sleep. `fuel` only bounds the recursion: every call keeps
`fuel ≥ maxAttempts - attempt`, so the fuel-exhausted branch is never
taken on the entry calls below. -/
def executeWithRetryGo {σ α : Type} (fn : ℕ → σ → Except ErrVal α × σ)
    (shouldRetry : ErrVal → Bool) (maxAttempts : ℕ) (maxDelay : ℚ)
    (useJitter : Bool) (rand : ℕ → ℚ) (backoffFactor : ℚ) :
    ℕ → ℕ → ℚ → σ → RetryRunResult σ α
  | fuel, attempt, delay, s =>
    let a := attempt + 1
    match fn a s with
    | (.ok v, s1) => ⟨.ok v, s1, 1, 0⟩
    | (.error e, s1) =>
      if a < maxAttempts ∧ shouldRetry e = true then
        match fuel with
        | 0 => ⟨.error e, s1, 1, 0⟩
        | fuel' + 1 =>
          let jitterAmt := if useJitter then rand a * (1 / 4) * delay else 0
          let wait := min maxDelay (delay + jitterAmt)
          let nextDelay := min maxDelay ((⌈delay * backoffFactor⌉ : ℤ) : ℚ)
          let r := executeWithRetryGo fn shouldRetry maxAttempts maxDelay useJitter rand
            backoffFactor fuel' a nextDelay s1
          ⟨r.outcome, r.finalState, r.calls + 1, wait + r.sleepMs⟩
      else ⟨.error e, s1, 1, 0⟩

/-- `RetryUtils.executeWithRetry` (`RetryUtils.ts` lines 20-51): clamps
the initial delay at 0, takes the effective delay cap as the maximum of
the clamped initial delay and `maxDelayMs` (line 30), defaults the retry
predicate to `ErrorUtils.isTransient`, and runs the loop. -/
def executeWithRetry {σ α : Type} (fn : ℕ → σ → Except ErrVal α × σ)
    (config : RetryConfig) (s : σ) (rand : ℕ → ℚ) : RetryRunResult σ α :=
  let delay := max 0 config.initialDelayMs
  let maxDelay := max delay config.maxDelayMs
  let shouldRetry := config.retryOn.getD ErrorUtils.isTransient
  executeWithRetryGo fn shouldRetry config.maxAttempts maxDelay config.jitter rand
    config.backoffFactor config.maxAttempts 0 delay s

end RetryUtils

/-- What one run of a breaker-protected operation did: the outcome, the
breaker state left behind, how many times the underlying operation was
invoked, and the total sleep the retry layer requested. -/
structure BreakerRunResult (α : Type) where
  outcome : Except ErrVal α
  breaker : CircuitBreakerState
  opCalls : ℕ
  sleepMs : ℚ

namespace PgParallel

/-- Pool partitioning of the `PgParallel` constructor (`part_004` lines
80-86): the per-worker pool size. Budget and worker count are nonnegative
integers; `Math.floor` of a nonnegative quotient is natural division. -/
def workerMax (totalMax maxWorkers : ℕ) : ℕ :=
  if maxWorkers > 0 then max 1 (totalMax / (maxWorkers + 1)) else 0

/-- Pool partitioning of the `PgParallel` constructor (`part_004` line 84):
the local pool size. In the source `totalMax - workerMax * maxWorkers` may
be negative, and `Math.max(1, ·)` then yields 1; truncated subtraction
under `max 1` yields the same value. -/
def localMax (totalMax maxWorkers : ℕ) : ℕ :=
  max 1 (totalMax - workerMax totalMax maxWorkers * maxWorkers)

/-- `executeWithBreakerAndRetry` and `executeFastPath` wrap the underlying
operation as `execOnce` (`part_004` lines 299-308 and 327-340): on success
the breaker is advanced (on the fast path only when failures were
recorded), on failure the breaker records the failure and the error is
rethrown wrapped. `op` gives the outcome of the underlying operation at
each 1-based invocation. -/
def mainExecOnce {α : Type} (config : CircuitBreakerConfig) (op : ℕ → Except ErrVal α)
    (now : ℤ) (fast : Bool) (attempt : ℕ) (st : CircuitBreakerState) :
    Except ErrVal α × CircuitBreakerState :=
  match op attempt with
  | .ok v =>
    if fast then
      if st.consecutiveFailures > 0 then (.ok v, CircuitBreakerUtils.onBreakerSuccess st config)
      else (.ok v, st)
    else (.ok v, CircuitBreakerUtils.onBreakerSuccess st config)
  | .error e => (.error (ErrorUtils.wrapError e), CircuitBreakerUtils.onBreakerFailure st config now)

/-- The tail of both execution paths of `part_004`: run `execOnce` once, or
under `RetryUtils.executeWithRetry` when a retry config with more than one
attempt was cached at construction (`hasRetryConfig`, line 77). -/
def mainRun {α : Type} (config : CircuitBreakerConfig) (retry : Option RetryConfig)
    (op : ℕ → Except ErrVal α) (now : ℤ) (rand : ℕ → ℚ) (fast : Bool)
    (st : CircuitBreakerState) : BreakerRunResult α :=
  let once : BreakerRunResult α :=
    let r := mainExecOnce config op now fast 1 st
    ⟨r.1, r.2, 1, 0⟩
  match retry with
  | some rc =>
    if 1 < rc.maxAttempts then
      let r := RetryUtils.executeWithRetry (mainExecOnce config op now fast) rc st rand
      ⟨r.outcome, r.finalState, r.calls, r.sleepMs⟩
    else once
  | none => once

/-- `PgParallel.executeWithBreakerAndRetry` (`part_004` lines 280-349).
When the breaker is CLOSED with no recorded failures, the fast path runs
(line 285). Otherwise the state is advanced by `ensureBreakerState`; a
throw from it propagates, and if the state is then OPEN the call rejects
with the `PgParallelError` "Circuit breaker is open" of category
CONNECTION without invoking the operation (lines 293-297). -/
def executeWithBreakerAndRetry {α : Type} (st : CircuitBreakerState)
    (config : CircuitBreakerConfig) (retry : Option RetryConfig)
    (op : ℕ → Except ErrVal α) (now : ℤ) (rand : ℕ → ℚ) : BreakerRunResult α :=
  if st.state = .CLOSED ∧ st.consecutiveFailures = 0 then
    mainRun config retry op now rand true st
  else
    let er := CircuitBreakerUtils.ensureBreakerState st config now
    match er.2 with
    | some msg => ⟨.error (.obj none none (some msg) none), er.1, 0, 0⟩
    | none =>
      if er.1.state = .OPEN then
        ⟨.error (.wrapped (js "Circuit breaker is open") .CONNECTION none), er.1, 0, 0⟩
      else mainRun config retry op now rand false er.1

end PgParallel

namespace PoolWorker

/-- The worker-side `execOnce` of `executeWithBreakerAndRetry` (`part_001`
lines 93-102): advance the breaker on each outcome and rethrow the raw
error, without wrapping. -/
def workerExecOnce {α : Type} (config : CircuitBreakerConfig) (op : ℕ → Except ErrVal α)
    (now : ℤ) (attempt : ℕ) (st : CircuitBreakerState) :
    Except ErrVal α × CircuitBreakerState :=
  match op attempt with
  | .ok v => (.ok v, CircuitBreakerUtils.onBreakerSuccess st config)
  | .error e => (.error e, CircuitBreakerUtils.onBreakerFailure st config now)

/-- The worker-side `executeWithBreakerAndRetry` (`part_001` lines 88-104)
with the config defaulting of `getCircuitCfg` (line 39) and the retry
defaulting of `executeWithRetry` (line 77): ensure the breaker state,
reject with the plain Error "Worker circuit breaker is open" while OPEN,
and otherwise run `execOnce`, under the retry loop when a retry config
was passed to the worker. -/
def workerExecuteWithBreakerAndRetry {α : Type} (st : CircuitBreakerState)
    (circuitConfig : Option CircuitBreakerConfig) (retry : Option RetryConfig)
    (op : ℕ → Except ErrVal α) (now : ℤ) (rand : ℕ → ℚ) : BreakerRunResult α :=
  let cfg := circuitConfig.getD CircuitBreakerUtils.getDefaultConfig
  let er := CircuitBreakerUtils.ensureBreakerState st cfg now
  match er.2 with
  | some msg => ⟨.error (.obj none none (some msg) none), er.1, 0, 0⟩
  | none =>
    if er.1.state = .OPEN then
      ⟨.error (.obj none none (some (js "Worker circuit breaker is open")) none), er.1, 0, 0⟩
    else
      match retry with
      | some rc =>
        let r := RetryUtils.executeWithRetry (workerExecOnce cfg op now) rc er.1 rand
        ⟨r.outcome, r.finalState, r.calls, r.sleepMs⟩
      | none =>
        let r := workerExecOnce cfg op now 1 er.1
        ⟨r.1, r.2, 1, 0⟩

/-- The mutable state of the worker runtime that the session lifecycle
touches: the `activeClients` table keyed by client id (`part_001` line
28), and a log with one entry per `client.release()` call, recording
which client id the released client was checked out for. -/
structure WorkerRtState where
  activeClients : List (List Char)
  releaseLog : List (List Char)
deriving DecidableEq, Repr

/-- How many times the client checked out for `clientId` has been
released. -/
def releaseCount (st : WorkerRtState) (clientId : List Char) : ℕ :=
  st.releaseLog.count clientId

/-- The checkout step of the `worker` message branch with a `clientId`
(`part_001` lines 147-148): `connectClient()` has succeeded and the
client is registered in `activeClients`. The handler then suspends while
the user body runs. -/
def sessionCheckout (st : WorkerRtState) (clientId : List Char) : WorkerRtState :=
  { st with activeClients := st.activeClients ++ [clientId] }

/-- The rest of the `worker` message branch once the user body has
settled (`part_001` lines 149-156 and the outer catch, lines 185-194):
the `finally` block releases the captured client and deletes its table
entry; when the body threw, the catch block replies with the error
message and, if the client id is still in the table, releases again and
deletes. The reply is `ok` or the error message sent back to the
dispatcher. -/
def sessionSettle (st : WorkerRtState) (clientId : List Char)
    (body : Except ErrVal Unit) : WorkerRtState × Except (Option (List Char)) Unit :=
  let st1 : WorkerRtState :=
    { activeClients := st.activeClients.erase clientId
      releaseLog := st.releaseLog ++ [clientId] }
  match body with
  | .ok _ => (st1, .ok ())
  | .error e =>
    if clientId ∈ st1.activeClients then
      ({ activeClients := st1.activeClients.erase clientId
         releaseLog := st1.releaseLog ++ [clientId] }, .error (errMessage e))
    else (st1, .error (errMessage e))

/-- The `query` message branch (`part_001` lines 170-179) together with
the outer catch (lines 185-194), given the outcome `queryResult` of the
breaker-and-retry protected query. A missing client id or an unknown id
throws, and the catch then finds no live entry to release (or no id at
all). When the protected query fails, the catch replies with the error
and, because the session client is still registered, releases it and
deletes the table entry. -/
def queryHandle (st : WorkerRtState) (clientId : Option (List Char))
    (queryResult : Except ErrVal Unit) : WorkerRtState × Except (Option (List Char)) Unit :=
  match clientId with
  | none => (st, .error (some (js "Missing clientId for query.")))
  | some cid =>
    if cid ∈ st.activeClients then
      match queryResult with
      | .ok _ => (st, .ok ())
      | .error e =>
        ({ activeClients := st.activeClients.erase cid
           releaseLog := st.releaseLog ++ [cid] }, .error (errMessage e))
    else
      (st, .error (some (js "Query failed: Client " ++ cid ++ js " not found.")))

/-- The error reply a worker posts from its catch block (`part_001` line
186): an object carrying only the message of the thrown error. -/
def workerReplyError (err : ErrVal) : ErrVal :=
  .obj none none (errMessage err) none

end PoolWorker

namespace PgParallel

/-- One entry of the `workers` array of `PgParallel` (`part_004` line 48):
the worker handle is identified by its thread id rendered as a string. -/
structure WorkerSlot where
  workerId : List Char
  isBusy : Bool
deriving DecidableEq, Repr

/-- The dispatcher state the correlation and scheduling code touches
(`part_004` lines 47-56): the worker slots, the round robin cursor, the
keys of the pending request table, and the shutdown flag. The resolver
closures of the pending table are not part of the state; what a reply
settles is returned by `handleWorkerMessage` instead. -/
structure DispatcherState where
  workers : List WorkerSlot
  currentWorkerIndex : ℕ
  pendingRequests : List (List Char)
  isShutdown : Bool
deriving DecidableEq, Repr

/-- Registration of a fresh request id in the pending table, as done by
`task`, `worker` and `proxyQueryToWorker` before posting the message
(`part_004` lines 193-195, 218-220, 244-246). -/
def registerPending (st : DispatcherState) (requestId : List Char) : DispatcherState :=
  { st with pendingRequests := st.pendingRequests ++ [requestId] }

/-- A reply message from a worker (`part_004` lines 148-153): the request
id, the sender thread id, and either data or an error object carrying
only a message. -/
structure WorkerReplyMsg (δ : Type) where
  requestId : List Char
  workerId : List Char
  result : Except (List Char) δ

/-- The `workers.find` and `isBusy = false` write of `handleWorkerMessage`
(`part_004` lines 154-155): the first slot whose worker id matches is
marked not busy. -/
def clearBusy (workers : List WorkerSlot) (workerId : List Char) : List WorkerSlot :=
  match workers with
  | [] => []
  | w :: rest =>
    if w.workerId = workerId then { w with isBusy := false } :: rest
    else w :: clearBusy rest workerId

/-- The rejection built for an error reply (`part_004` lines 160-167): a
`PgParallelError` whose message is the reply message and whose category is
the categorization of the reply error object, which carries only that
message. -/
def workerRejection (replyError : ErrVal) : ErrVal :=
  .wrapped
    (match errMessage replyError with
     | some m => m
     | none => [])
    (ErrorUtils.categorizeError replyError) none

/-- `PgParallel.handleWorkerMessage` (`part_004` lines 148-171): clear the
busy flag of the sender slot first, then consult the pending table; when
no entry exists, return without settling anything; otherwise settle the
pending promise with the data or the categorized rejection and delete the
entry. The settled outcome is returned alongside the new state. -/
def handleWorkerMessage {δ : Type} (st : DispatcherState) (msg : WorkerReplyMsg δ) :
    DispatcherState × Option (Except ErrVal δ) :=
  let st1 := { st with workers := clearBusy st.workers msg.workerId }
  if msg.requestId ∈ st1.pendingRequests then
    let settled : Except ErrVal δ :=
      match msg.result with
      | .ok d => .ok d
      | .error m => .error (workerRejection (.obj none none (some m) none))
    ({ st1 with pendingRequests := st1.pendingRequests.erase msg.requestId }, some settled)
  else (st1, none)

/-- `PgParallel.shutdown` (`part_004` lines 253-260): set the flag, drain
the local pool, terminate the workers and clear the slots. The pending
request table is not touched. -/
def shutdown (st : DispatcherState) : DispatcherState :=
  if st.isShutdown then st
  else { st with isShutdown := true, workers := [] }

/-- The scan loop of `PgParallel.getNextWorker` (`part_004` lines
263-269): starting at the cursor, visit up to `n` slots looking for one
that is not busy; the returned pair is the chosen index and the cursor
value after the pick. -/
def getNextWorkerLoop (workers : List WorkerSlot) : ℕ → ℕ → Option (ℕ × ℕ)
  | _, 0 => none
  | idx, n + 1 =>
    match workers.get? idx with
    | some w =>
      if w.isBusy then getNextWorkerLoop workers ((idx + 1) % workers.length) n
      else some (idx, (idx + 1) % workers.length)
    | none => none

/-- `PgParallel.getNextWorker` (`part_004` lines 262-274): scan one full
round for a non-busy slot; if every slot is busy, fall through to the
slot at the cursor (after a full round the cursor is back at its start
value modulo the length). Returns the chosen slot index and the state
with the advanced cursor; `none` only for an empty fleet, which the
callers exclude before picking. -/
def getNextWorker (st : DispatcherState) : Option (ℕ × DispatcherState) :=
  match st.workers with
  | [] => none
  | _ :: _ =>
    match getNextWorkerLoop st.workers st.currentWorkerIndex st.workers.length with
    | some (i, cursor) => some (i, { st with currentWorkerIndex := cursor })
    | none =>
      let i := st.currentWorkerIndex % st.workers.length
      some (i, { st with currentWorkerIndex := (i + 1) % st.workers.length })

end PgParallel

/-- C1, counterexample: at total budget M = 1 with W = 1 worker the claimed
budget conservation fails: the constructor computes P = 1 and L = 1, so
L + W·P = 2 but M = 1 (the pools over-allocate). -/
theorem pool_partition_budget_cex :
    PgParallel.localMax 1 1 + 1 * PgParallel.workerMax 1 1 = 2 ∧
    PgParallel.localMax 1 1 + 1 * PgParallel.workerMax 1 1 ≠ 1 := by decide

/-- C1, amended: for a valid configuration (M ≥ 1, W ≥ 0) in which the
budget covers every consumer (W = 0, or W + 1 ≤ M), the pool sizes of the
constructor satisfy L + W·P = M, L ≥ 1, P = 0 when W = 0, P ≥ 1 when
W > 0, and P is the stated clamped quotient; when 0 < W and M ≤ W the
clamps force P = 1 and L = 1, so the sizes sum to W + 1 > M instead. -/
theorem pool_partition_budget_amended (m w : ℕ) (hm : 1 ≤ m)
    (hw : w = 0 ∨ w + 1 ≤ m) :
    PgParallel.localMax m w + w * PgParallel.workerMax m w = m ∧
    1 ≤ PgParallel.localMax m w ∧
    (w = 0 → PgParallel.workerMax m w = 0) ∧
    (0 < w → 1 ≤ PgParallel.workerMax m w) ∧
    (0 < w → PgParallel.workerMax m w = max 1 (m / (w + 1))) := by
  rcases Nat.eq_zero_or_pos w with h0 | hpos
  · subst h0
    have hwm0 : PgParallel.workerMax m 0 = 0 := by simp [PgParallel.workerMax]
    have hlm : PgParallel.localMax m 0 = m := by
      simp only [PgParallel.localMax, hwm0, Nat.zero_mul, Nat.sub_zero]
      omega
    refine ⟨?_, ?_, fun _ => hwm0, fun h => absurd h (lt_irrefl 0),
      fun h => absurd h (lt_irrefl 0)⟩
    · rw [hlm, hwm0]
      omega
    · rw [hlm]
      exact hm
  · have hwm : w + 1 ≤ m := by
      rcases hw with h | h
      · omega
      · exact h
    have hq1 : 1 ≤ m / (w + 1) := (Nat.one_le_div_iff (by omega)).mpr hwm
    have hP : PgParallel.workerMax m w = m / (w + 1) := by
      simp [PgParallel.workerMax, hpos, Nat.max_eq_right hq1]
    have hA : w * (m / (w + 1)) + m / (w + 1) + m % (w + 1) = m := by
      have h1 := Nat.div_add_mod m (w + 1)
      have h2 : (w + 1) * (m / (w + 1)) = w * (m / (w + 1)) + m / (w + 1) := by ring
      omega
    have hL : PgParallel.localMax m w = m - w * (m / (w + 1)) := by
      simp only [PgParallel.localMax, hP, Nat.mul_comm (m / (w + 1)) w]
      omega
    refine ⟨?_, ?_, fun h => absurd hpos (by omega), fun _ => by rw [hP]; exact hq1,
      fun _ => by rw [hP]; exact (Nat.max_eq_right hq1).symm⟩
    · rw [hL, hP, Nat.mul_comm w (m / (w + 1))]
      rw [Nat.mul_comm w (m / (w + 1))] at hA
      omega
    · rw [hL]
      omega

/-- C1, witness: the amended statement at M = 10, W = 3: P = 2, L = 4,
and 4 + 3·2 = 10. -/
theorem pool_partition_budget_amended_witness :
    PgParallel.localMax 10 3 + 3 * PgParallel.workerMax 10 3 = 10 ∧
    1 ≤ PgParallel.localMax 10 3 ∧
    (3 = 0 → PgParallel.workerMax 10 3 = 0) ∧
    (0 < 3 → 1 ≤ PgParallel.workerMax 10 3) ∧
    (0 < 3 → PgParallel.workerMax 10 3 = max 1 (10 / (3 + 1))) :=
  pool_partition_budget_amended 10 3 (by decide) (Or.inr (by decide))

/-- C4: the breaker transition function matches the state table. A failure
in CLOSED increments the consecutive count and opens the breaker exactly
when the incremented count reaches the threshold, recording opened-at and
arming the half-open counters; a failure in HALF_OPEN opens the same way;
a success in CLOSED resets the count and stays CLOSED; a success in
HALF_OPEN closes exactly when the incremented success count reaches the
needed number, resetting the consecutive count, and otherwise only
increments the success count. -/
theorem breaker_transition_table (st : CircuitBreakerState)
    (cfg : CircuitBreakerConfig) (now : ℤ) :
    (st.state = .CLOSED →
      (CircuitBreakerUtils.onBreakerFailure st cfg now).consecutiveFailures
          = st.consecutiveFailures + 1 ∧
      ((CircuitBreakerUtils.onBreakerFailure st cfg now).state = .OPEN ↔
          cfg.failureThreshold ≤ st.consecutiveFailures + 1) ∧
      (cfg.failureThreshold ≤ st.consecutiveFailures + 1 →
        (CircuitBreakerUtils.onBreakerFailure st cfg now).openedAt = now ∧
        (CircuitBreakerUtils.onBreakerFailure st cfg now).halfOpenAllowedCalls
            = cfg.halfOpenMaxCalls ∧
        (CircuitBreakerUtils.onBreakerFailure st cfg now).halfOpenSuccesses = 0)) ∧
    (st.state = .HALF_OPEN →
      (CircuitBreakerUtils.onBreakerFailure st cfg now).state = .OPEN ∧
      (CircuitBreakerUtils.onBreakerFailure st cfg now).openedAt = now ∧
      (CircuitBreakerUtils.onBreakerFailure st cfg now).halfOpenAllowedCalls
          = cfg.halfOpenMaxCalls ∧
      (CircuitBreakerUtils.onBreakerFailure st cfg now).halfOpenSuccesses = 0) ∧
    (st.state = .CLOSED →
      (CircuitBreakerUtils.onBreakerSuccess st cfg).state = .CLOSED ∧
      (CircuitBreakerUtils.onBreakerSuccess st cfg).consecutiveFailures = 0) ∧
    (st.state = .HALF_OPEN →
      ((CircuitBreakerUtils.onBreakerSuccess st cfg).state = .CLOSED ↔
          cfg.halfOpenSuccessesToClose ≤ st.halfOpenSuccesses + 1) ∧
      (cfg.halfOpenSuccessesToClose ≤ st.halfOpenSuccesses + 1 →
        (CircuitBreakerUtils.onBreakerSuccess st cfg).consecutiveFailures = 0) ∧
      (¬ cfg.halfOpenSuccessesToClose ≤ st.halfOpenSuccesses + 1 →
        (CircuitBreakerUtils.onBreakerSuccess st cfg).state = .HALF_OPEN ∧
        (CircuitBreakerUtils.onBreakerSuccess st cfg).halfOpenSuccesses
            = st.halfOpenSuccesses + 1)) := by
  refine ⟨fun hc => ?_, fun hh => ?_, fun hc => ?_, fun hh => ?_⟩
  · simp only [CircuitBreakerUtils.onBreakerFailure, CircuitBreakerUtils.openBreaker, hc]
    split
    · simp_all
    · split
      · simp_all
      · simp_all
  · simp [CircuitBreakerUtils.onBreakerFailure, CircuitBreakerUtils.openBreaker, hh]
  · simp [CircuitBreakerUtils.onBreakerSuccess, hc]
  · by_cases hle : cfg.halfOpenSuccessesToClose ≤ st.halfOpenSuccesses + 1
    · simp [CircuitBreakerUtils.onBreakerSuccess, hh, hle]
    · simp [CircuitBreakerUtils.onBreakerSuccess, hh, hle]

/-- C3: while the breaker is OPEN and less than the cooldown has elapsed
since opened-at, a protected operation never invokes the underlying call
and rejects with the breaker-open signal: on the main side the
`PgParallelError` "Circuit breaker is open" of category CONNECTION, in a
worker the plain Error "Worker circuit breaker is open". -/
theorem breaker_open_rejects {α : Type} (st : CircuitBreakerState)
    (cfg : CircuitBreakerConfig) (retry : Option RetryConfig)
    (op wop : ℕ → Except ErrVal α) (now : ℤ) (rand wrand : ℕ → ℚ)
    (hopen : st.state = .OPEN) (hcool : now - st.openedAt < cfg.cooldownMs) :
    (PgParallel.executeWithBreakerAndRetry st cfg retry op now rand).opCalls = 0 ∧
    (PgParallel.executeWithBreakerAndRetry st cfg retry op now rand).outcome
      = .error (.wrapped (js "Circuit breaker is open") .CONNECTION none) ∧
    (PoolWorker.workerExecuteWithBreakerAndRetry st (some cfg) retry wop now wrand).opCalls
      = 0 ∧
    (PoolWorker.workerExecuteWithBreakerAndRetry st (some cfg) retry wop now wrand).outcome
      = .error (.obj none none (some (js "Worker circuit breaker is open")) none) := by
  have hnc : ¬ cfg.cooldownMs ≤ now - st.openedAt := by omega
  have hens : CircuitBreakerUtils.ensureBreakerState st cfg now = (st, none) := by
    simp [CircuitBreakerUtils.ensureBreakerState, hopen, hnc]
  refine ⟨?_, ?_, ?_, ?_⟩ <;>
    simp [PgParallel.executeWithBreakerAndRetry, PoolWorker.workerExecuteWithBreakerAndRetry,
      hens, hopen]

/-- C3, witness: a breaker opened at time 1000 with a 10000 ms cooldown,
consulted at time 1500: both sides reject without any underlying call. -/
theorem breaker_open_rejects_witness :
    (PgParallel.executeWithBreakerAndRetry ⟨.OPEN, 5, 2, 0, 1000⟩
        CircuitBreakerUtils.getDefaultConfig none (fun _ => .ok ()) 1500 (fun _ => 0)).opCalls
      = 0 ∧
    (PgParallel.executeWithBreakerAndRetry ⟨.OPEN, 5, 2, 0, 1000⟩
        CircuitBreakerUtils.getDefaultConfig none (fun _ => .ok ()) 1500 (fun _ => 0)).outcome
      = .error (.wrapped (js "Circuit breaker is open") .CONNECTION none) ∧
    (PoolWorker.workerExecuteWithBreakerAndRetry ⟨.OPEN, 5, 2, 0, 1000⟩
        (some CircuitBreakerUtils.getDefaultConfig) none (fun _ => .ok ()) 1500
        (fun _ => 0)).opCalls = 0 ∧
    (PoolWorker.workerExecuteWithBreakerAndRetry ⟨.OPEN, 5, 2, 0, 1000⟩
        (some CircuitBreakerUtils.getDefaultConfig) none (fun _ => .ok ()) 1500
        (fun _ => 0)).outcome
      = .error (.obj none none (some (js "Worker circuit breaker is open")) none) :=
  breaker_open_rejects ⟨.OPEN, 5, 2, 0, 1000⟩ CircuitBreakerUtils.getDefaultConfig none
    (fun _ => .ok ()) (fun _ => .ok ()) 1500 (fun _ => 0) (fun _ => 0) rfl (by decide)

/-- Bounds of the retry loop, by induction on the fuel: at least one call
is made, the calls added to the attempts already made never exceed
`maxAttempts`, and the requested sleep plus one delay cap is at most
`calls` times the cap (every sleep is clamped at the cap and there is one
fewer sleep than calls). -/
theorem executeWithRetryGo_bounds {σ α : Type} (fn : ℕ → σ → Except ErrVal α × σ)
    (shouldRetry : ErrVal → Bool) (maxAttempts : ℕ) (maxDelay : ℚ) (useJitter : Bool)
    (rand : ℕ → ℚ) (backoff : ℚ) :
    ∀ (fuel attempt : ℕ) (delay : ℚ) (s : σ), attempt < maxAttempts →
      1 ≤ (RetryUtils.executeWithRetryGo fn shouldRetry maxAttempts maxDelay useJitter rand
            backoff fuel attempt delay s).calls ∧
      (RetryUtils.executeWithRetryGo fn shouldRetry maxAttempts maxDelay useJitter rand
            backoff fuel attempt delay s).calls + attempt ≤ maxAttempts ∧
      (RetryUtils.executeWithRetryGo fn shouldRetry maxAttempts maxDelay useJitter rand
            backoff fuel attempt delay s).sleepMs + maxDelay
        ≤ ((RetryUtils.executeWithRetryGo fn shouldRetry maxAttempts maxDelay useJitter rand
            backoff fuel attempt delay s).calls : ℚ) * maxDelay := by
  intro fuel
  induction fuel with
  | zero =>
    intro attempt delay s hat
    rw [RetryUtils.executeWithRetryGo]
    rcases hfn : fn (attempt + 1) s with ⟨res, s1⟩
    cases res with
    | ok v =>
      simp only [hfn]
      refine ⟨le_refl 1, by omega, by simp⟩
    | error e =>
      simp only [hfn]
      split
      · refine ⟨le_refl 1, by simp; omega, by simp⟩
      · refine ⟨le_refl 1, by simp; omega, by simp⟩
  | succ f ih =>
    intro attempt delay s hat
    rw [RetryUtils.executeWithRetryGo]
    rcases hfn : fn (attempt + 1) s with ⟨res, s1⟩
    cases res with
    | ok v =>
      simp only [hfn]
      refine ⟨le_refl 1, by omega, by simp⟩
    | error e =>
      simp only [hfn]
      split
      · rename_i hcan
        have hrec := ih (attempt + 1) (min maxDelay ((⌈delay * backoff⌉ : ℤ) : ℚ)) s1 hcan.1
        simp only
        refine ⟨by omega, by omega, ?_⟩
        have hw : min maxDelay (delay + (if useJitter then rand (attempt + 1) * (1 / 4) * delay else 0))
            ≤ maxDelay := min_le_left _ _
        have hs := hrec.2.2
        push_cast
        push_cast at hs
        nlinarith [hs, hw]
      · refine ⟨le_refl 1, by simp; omega, by simp⟩

/-- An operation failing every attempt with an ETIMEDOUT error (the shape
rigged in scenario 4 of the spec), for exercising the retry executor. -/
def alwaysTimeoutOp : ℕ → Unit → Except ErrVal Unit × Unit :=
  fun _ s => (.error (.obj (some (js "ETIMEDOUT")) none (some (js "timeout")) none), s)

/-- C5, counterexample: with max_attempts = 2, initial_delay = 100 ms,
max_delay = 1 ms, backoff 1 and no jitter, an always-failing transient
operation sleeps 100 ms in total, exceeding the claimed bound
(max_attempts − 1)·max_delay = 1 ms: the executor caps each sleep at
`max(initial_delay, max_delay)`, not at `max_delay`. -/
theorem retry_sleep_cex :
    (RetryUtils.executeWithRetry alwaysTimeoutOp
        ⟨2, 100, 1, 1, false, none⟩ () (fun _ => 0)).calls = 2 ∧
    (RetryUtils.executeWithRetry alwaysTimeoutOp
        ⟨2, 100, 1, 1, false, none⟩ () (fun _ => 0)).sleepMs = 100 ∧
    ¬ ((100 : ℚ) ≤ ((2 - 1 : ℕ) : ℚ) * (1 : ℚ)) := by
  have htr : ErrorUtils.isTransient
      (.obj (some (js "ETIMEDOUT")) none (some (js "timeout")) none) = true := by decide
  have hmax : max (max (0 : ℚ) 100) 1 = 100 := by
    rw [max_eq_right (by norm_num : (0 : ℚ) ≤ 100), max_eq_left (by norm_num : (1 : ℚ) ≤ 100)]
  refine ⟨?_, ?_, by norm_num⟩
  · simp [RetryUtils.executeWithRetry, RetryUtils.executeWithRetryGo, alwaysTimeoutOp,
      htr, hmax]
  · simp [RetryUtils.executeWithRetry, RetryUtils.executeWithRetryGo, alwaysTimeoutOp,
      htr, hmax]

/-- C5, amended: for every retry configuration with max_attempts ≥ 1 and
backoff_factor ≥ 1, the executor invokes the operation at most
max_attempts times, and the total requested sleep is at most
(max_attempts − 1) · max(max(0, initial_delay), max_delay) — the delay
cap the code computes at line 30 of RetryUtils.ts, which equals the
claimed (max_attempts − 1) · max_delay only when
initial_delay ≤ max_delay. -/
theorem retry_bounds_amended {σ α : Type} (fn : ℕ → σ → Except ErrVal α × σ)
    (config : RetryConfig) (s : σ) (rand : ℕ → ℚ)
    (h1 : 1 ≤ config.maxAttempts) (h2 : 1 ≤ config.backoffFactor) :
    (RetryUtils.executeWithRetry fn config s rand).calls ≤ config.maxAttempts ∧
    (RetryUtils.executeWithRetry fn config s rand).sleepMs
      ≤ ((config.maxAttempts - 1 : ℕ) : ℚ)
          * max (max 0 config.initialDelayMs) config.maxDelayMs := by
  have hmd : (0 : ℚ) ≤ max (max 0 config.initialDelayMs) config.maxDelayMs :=
    le_trans (le_max_left _ _) (le_max_left _ _)
  have hb := executeWithRetryGo_bounds fn (config.retryOn.getD ErrorUtils.isTransient)
      config.maxAttempts (max (max 0 config.initialDelayMs) config.maxDelayMs)
      config.jitter rand config.backoffFactor config.maxAttempts 0
      (max 0 config.initialDelayMs) s (by omega)
  obtain ⟨hb1, hb2, hb3⟩ := hb
  simp only [RetryUtils.executeWithRetry]
  constructor
  · omega
  · have hcm : (RetryUtils.executeWithRetryGo fn
        (config.retryOn.getD ErrorUtils.isTransient) config.maxAttempts
        (max (max 0 config.initialDelayMs) config.maxDelayMs) config.jitter rand
        config.backoffFactor config.maxAttempts 0
        (max 0 config.initialDelayMs) s).calls ≤ config.maxAttempts := by omega
    have hcmq : ((RetryUtils.executeWithRetryGo fn
        (config.retryOn.getD ErrorUtils.isTransient) config.maxAttempts
        (max (max 0 config.initialDelayMs) config.maxDelayMs) config.jitter rand
        config.backoffFactor config.maxAttempts 0
        (max 0 config.initialDelayMs) s).calls : ℚ) ≤ (config.maxAttempts : ℚ) := by
      exact_mod_cast hcm
    rw [Nat.cast_sub h1]
    push_cast
    nlinarith [hb3, hcmq, hmd]

/-- C5, witness: the amended bounds at max_attempts = 3, initial_delay =
5 ms, max_delay = 20 ms, backoff 2, no jitter, on the always-failing
transient operation. -/
theorem retry_bounds_amended_witness :
    (RetryUtils.executeWithRetry alwaysTimeoutOp
        ⟨3, 5, 20, 2, false, none⟩ () (fun _ => 0)).calls ≤ 3 ∧
    (RetryUtils.executeWithRetry alwaysTimeoutOp
        ⟨3, 5, 20, 2, false, none⟩ () (fun _ => 0)).sleepMs
      ≤ ((3 - 1 : ℕ) : ℚ) * max (max 0 (5 : ℚ)) 20 :=
  retry_bounds_amended alwaysTimeoutOp ⟨3, 5, 20, 2, false, none⟩ () (fun _ => 0)
    (by decide) (by norm_num)

/-- A serialization-failure error: Postgres code 40001, no message. -/
def c6SerializationErr : ErrVal := .obj (some (js "40001")) none none none

/-- A unique-constraint violation with a short message. -/
def c6ConstraintErr : ErrVal := .obj (some (js "23505")) none (some (js "dup")) none

/-- C6, counterexample: categorization of a wrapped error does not agree
with categorization of the original. A code-40001 error categorizes as
SERIALIZATION, but its wrapped form is a PgParallelError with no code
field and the fallback message "Unknown error", which categorizes as
UNKNOWN: the classifier never reads the stored category field. -/
theorem categorize_wrap_cex :
    ErrorUtils.categorizeError c6SerializationErr = .SERIALIZATION ∧
    ErrorUtils.categorizeError (ErrorUtils.wrapError c6SerializationErr) = .UNKNOWN ∧
    ErrorUtils.categorizeError (ErrorUtils.wrapError c6SerializationErr)
      ≠ ErrorUtils.categorizeError c6SerializationErr := by decide

/-- Categorization is invariant under the one-level AggregateError unwrap
used by the wrapper, because the classifier itself recurses into the same
first sub-error. -/
theorem categorizeError_aggBase (e : ErrVal) :
    ErrorUtils.categorizeError (ErrorUtils.aggBase e) = ErrorUtils.categorizeError e := by
  cases e with
  | nullv => rfl
  | wrapped m c cause => rfl
  | obj code name msg errs =>
    cases name with
    | none => rfl
    | some n =>
      cases errs with
      | none => rfl
      | some l =>
        cases l with
        | nil => rfl
        | cons b rest =>
          by_cases hn : n = js "AggregateError"
          · simp [ErrorUtils.aggBase, ErrorUtils.categorizeError, hn]
          · simp [ErrorUtils.aggBase, ErrorUtils.categorizeError, hn]

/-- C6, amended: the category stored by the wrapper agrees with the
classifier on the original error — Wrap(e).category = Categorize(e) — for
every error that is not already wrapped and whose first aggregate
sub-error is not already wrapped; re-categorizing the wrapped value
itself, as the claim stated it, can disagree because a PgParallelError
exposes no code field to the classifier. -/
theorem wrap_category_agrees (e : ErrVal) (h1 : isWrappedErr e = false)
    (h2 : isWrappedErr (ErrorUtils.aggBase e) = false) :
    wrappedCategory (ErrorUtils.wrapError e) = some (ErrorUtils.categorizeError e) := by
  cases e with
  | nullv => simp [ErrorUtils.wrapError, ErrorUtils.aggBase, wrappedCategory, errMessage]
  | wrapped m c cause => simp [isWrappedErr] at h1
  | obj code name msg errs =>
    rw [← categorizeError_aggBase]
    simp only [ErrorUtils.wrapError]
    cases hb : ErrorUtils.aggBase (.obj code name msg errs) with
    | wrapped m c cc => rw [hb] at h2; simp [isWrappedErr] at h2
    | nullv => simp [wrappedCategory]
    | obj c2 n2 m2 e2 => simp [wrappedCategory]

/-- C6, witness: the amended law at a concrete constraint violation. -/
theorem wrap_category_agrees_witness :
    wrappedCategory (ErrorUtils.wrapError c6ConstraintErr) = some ErrorCategory.CONSTRAINT :=
  (wrap_category_agrees c6ConstraintErr rfl rfl).trans (by decide)

/-- A constraint-violation error whose message mentions a connection. -/
def c7MixedErr : ErrVal :=
  .obj (some (js "23505")) none (some (js "connection failed")) none

/-- A deadlock error: Postgres code 40P01. -/
def c7DeadlockErr : ErrVal := .obj (some (js "40P01")) none none none

/-- C7, counterexample: the default retry predicate is not equivalent to
membership of the category in the transient set. An error with code 23505
and message "connection failed" categorizes as CONSTRAINT, outside the
set, yet the predicate returns true through its message fast path. -/
theorem default_retry_predicate_iff_cex :
    ErrorUtils.isTransient c7MixedErr = true ∧
    ErrorUtils.categorizeError c7MixedErr = .CONSTRAINT ∧
    ErrorUtils.transientCategories.contains (ErrorUtils.categorizeError c7MixedErr)
      = false := by decide

/-- C7, amended: the implication that does hold. Whenever the category of
an error lies in {TRANSIENT, CONNECTION, TIMEOUT, DEADLOCK,
SERIALIZATION}, the default predicate returns true; the converse fails
because the fast code and message paths can also fire for errors whose
category is outside the set. -/
theorem default_retry_predicate_complete (e : ErrVal)
    (h : ErrorUtils.transientCategories.contains (ErrorUtils.categorizeError e) = true) :
    ErrorUtils.isTransient e = true := by
  cases e with
  | nullv => exact absurd h (by decide)
  | obj code name msg errs => simp [ErrorUtils.isTransient, h]
  | wrapped m c cause => simp [ErrorUtils.isTransient, h]

/-- C7, witness: the amended implication at a deadlock error. -/
theorem default_retry_predicate_complete_witness :
    ErrorUtils.isTransient c7DeadlockErr = true :=
  default_retry_predicate_complete c7DeadlockErr (by decide)

/-- The Postgres unique-violation error of scenario 3 of the spec: code
23505, the standard duplicate-key message. -/
def pgUniqueViolation : ErrVal :=
  .obj (some (js "23505")) (some (js "error"))
    (some (js "duplicate key value violates unique constraint")) none

/-- A dispatcher with one busy worker slot and one pending request. -/
def c8Dispatch : PgParallel.DispatcherState :=
  { workers := [{ workerId := js "w1", isBusy := true }], currentWorkerIndex := 0,
    pendingRequests := [js "r1"], isShutdown := false }

/-- C8, counterexample: a unique-constraint violation raised inside a
session categorizes as CONSTRAINT at the worker, but the worker forwards
only the message; the dispatcher re-categorizes the message-only reply
and rejects with category UNKNOWN, not CONSTRAINT. -/
theorem session_constraint_category_cex :
    ErrorUtils.categorizeError pgUniqueViolation = .CONSTRAINT ∧
    (PgParallel.handleWorkerMessage c8Dispatch
        (⟨js "r1", js "w1", .error ((errMessage pgUniqueViolation).getD [])⟩ :
          PgParallel.WorkerReplyMsg Unit)).2
      = some (.error (.wrapped (js "duplicate key value violates unique constraint")
          .UNKNOWN none)) ∧
    ErrorCategory.UNKNOWN ≠ ErrorCategory.CONSTRAINT := by
  refine ⟨by decide, ?_, by decide⟩
  rfl

/-- Any error object whose only populated field is a code starting with 23
(a Postgres integrity-constraint violation) categorizes as CONSTRAINT,
whatever its name and message. -/
theorem categorizeByFields_code23 (code : List Char) (name msg : Option (List Char))
    (h : beginsWith code (js "23") = true) :
    ErrorUtils.categorizeByFields (some code) name msg = .CONSTRAINT := by
  cases code with
  | nil => simp [js, beginsWith] at h
  | cons c1 tl =>
    cases tl with
    | nil => simp [js, beginsWith] at h
    | cons c2 rest =>
      simp only [js] at h
      simp only [beginsWith, Bool.and_eq_true, decide_eq_true_eq] at h
      obtain ⟨hc1, hc2, -⟩ := h
      subst hc1
      subst hc2
      simp +decide [ErrorUtils.categorizeByFields, strTruthy, js, beginsWith]

/-- A message-only error object with none of the three keyword substrings
categorizes as UNKNOWN. -/
theorem categorize_message_only (m : List Char)
    (h1 : hasSub (lowerStr m) (js "timeout") = false)
    (h2 : hasSub (lowerStr m) (js "connection") = false)
    (h3 : hasSub (lowerStr m) (js "deadlock") = false) :
    ErrorUtils.categorizeError (.obj none none (some m) none) = .UNKNOWN := by
  simp only [ErrorUtils.categorizeError, ErrorUtils.categorizeByFields, strTruthy,
    ErrorUtils.categorizeByNameMessage]
  by_cases hm : m.isEmpty
  · simp [hm]
  · simp [hm, h1, h2, h3]

/-- C8, amended: when a session query fails with a Postgres
integrity-constraint violation (code prefix 23) whose message contains
none of the keyword substrings, the worker categorizes it as CONSTRAINT,
but the reply carries only the message, so the error delivered to the
caller is a wrapped PgParallelError of category UNKNOWN — still a wrapped
error, but not of category CONSTRAINT as claimed. -/
theorem worker_error_category_from_message (st : PgParallel.DispatcherState)
    (rid wid code m : List Char) (nm : Option (List Char))
    (hin : rid ∈ st.pendingRequests)
    (hcode : beginsWith code (js "23") = true)
    (h1 : hasSub (lowerStr m) (js "timeout") = false)
    (h2 : hasSub (lowerStr m) (js "connection") = false)
    (h3 : hasSub (lowerStr m) (js "deadlock") = false) :
    ErrorUtils.categorizeError (.obj (some code) nm (some m) none) = .CONSTRAINT ∧
    (PgParallel.handleWorkerMessage st
        (⟨rid, wid, .error m⟩ : PgParallel.WorkerReplyMsg Unit)).2
      = some (.error (.wrapped m .UNKNOWN none)) := by
  constructor
  · cases nm with
    | none =>
      have hc := categorizeByFields_code23 code none (some m) hcode
      simpa [ErrorUtils.categorizeError] using hc
    | some n =>
      have hc := categorizeByFields_code23 code (some n) (some m) hcode
      simpa [ErrorUtils.categorizeError] using hc
  · simp [PgParallel.handleWorkerMessage, hin, PgParallel.workerRejection, errMessage,
      categorize_message_only m h1 h2 h3]

/-- C8, witness: the amended statement at the concrete duplicate-key
violation and a dispatcher with the matching pending request. -/
theorem worker_error_category_from_message_witness :
    ErrorUtils.categorizeError (.obj (some (js "23505")) (some (js "error"))
        (some (js "duplicate key value violates unique constraint")) none) = .CONSTRAINT ∧
    (PgParallel.handleWorkerMessage c8Dispatch
        (⟨js "r1", js "w1", .error (js "duplicate key value violates unique constraint")⟩ :
          PgParallel.WorkerReplyMsg Unit)).2
      = some (.error (.wrapped (js "duplicate key value violates unique constraint")
          .UNKNOWN none)) :=
  worker_error_category_from_message c8Dispatch (js "r1") (js "w1") (js "23505")
    (js "duplicate key value violates unique constraint") (some (js "error"))
    (by decide) (by decide) (by decide) (by decide) (by decide)

/-- The worker-side trace of a session whose proxied SESSION_QUERY fails
while the body is still running: the client is checked out, the `query`
message handler catches the database error, then the suspended session
handler resumes with the rethrown error and settles. -/
def c2Trace : PoolWorker.WorkerRtState :=
  let st1 := PoolWorker.sessionCheckout ⟨[], []⟩ (js "c1")
  let st2 := (PoolWorker.queryHandle st1 (some (js "c1")) (.error pgUniqueViolation)).1
  (PoolWorker.sessionSettle st2 (js "c1") (.error pgUniqueViolation)).1

/-- C2, counterexample: on that trace the checked-out client is released
twice, not exactly once — once by the catch block of the failing `query`
message handler (which also deletes the table entry), and once more
unconditionally by the `finally` block of the session handler. -/
theorem session_release_twice_cex :
    PoolWorker.releaseCount c2Trace (js "c1") = 2 ∧
    PoolWorker.releaseCount c2Trace (js "c1") ≠ 1 := by decide

/-- C2, amended: a session whose client id is fresh releases the client
exactly once when the body returns normally or throws — including a
failure of a query run on the worker-local resilient client, which
reaches the handler as a thrown body error; but when a SESSION_QUERY
message for the same session fails while the body is still running, the
query handler's catch releases the live client early and the session
handler's finally releases it again, for two releases in total. -/
theorem session_client_release_once (st : PoolWorker.WorkerRtState) (cid : List Char)
    (body : Except ErrVal Unit) (hfresh : cid ∉ st.activeClients) :
    PoolWorker.releaseCount
        (PoolWorker.sessionSettle (PoolWorker.sessionCheckout st cid) cid body).1 cid
      = PoolWorker.releaseCount st cid + 1 := by
  have herase : (st.activeClients ++ [cid]).erase cid = st.activeClients := by
    rw [List.erase_append_right _ hfresh]
    simp
  cases body with
  | ok v =>
    simp [PoolWorker.sessionSettle, PoolWorker.sessionCheckout, PoolWorker.releaseCount,
      herase, List.count_append]
  | error e =>
    simp [PoolWorker.sessionSettle, PoolWorker.sessionCheckout, PoolWorker.releaseCount,
      herase, hfresh, List.count_append]

/-- C2, witness: a fresh session on an idle worker runtime whose body
throws the duplicate-key error releases its client exactly once. -/
theorem session_client_release_once_witness :
    PoolWorker.releaseCount
        (PoolWorker.sessionSettle (PoolWorker.sessionCheckout ⟨[], []⟩ (js "c1")) (js "c1")
          (.error pgUniqueViolation)).1 (js "c1")
      = PoolWorker.releaseCount (⟨[], []⟩ : PoolWorker.WorkerRtState) (js "c1") + 1 :=
  session_client_release_once ⟨[], []⟩ (js "c1") (.error pgUniqueViolation) (by decide)

/-- A dispatcher with one idle worker and nothing pending. -/
def c9Start : PgParallel.DispatcherState :=
  { workers := [{ workerId := js "w1", isBusy := false }], currentWorkerIndex := 0,
    pendingRequests := [], isShutdown := false }

/-- A dispatcher with one busy worker and one pending request. -/
def c9Pending : PgParallel.DispatcherState :=
  { workers := [{ workerId := js "w1", isBusy := true }], currentWorkerIndex := 0,
    pendingRequests := [js "r1"], isShutdown := false }

/-- The reply settling the pending request of `c9Pending`. -/
def c9Reply : PgParallel.WorkerReplyMsg Unit := ⟨js "r1", js "w1", .ok ()⟩

/-- C9, counterexample: a request registered and never replied to is still
in the pending table after shutdown() has run: shutdown drains the pool
and terminates workers but never touches the pending table. -/
theorem pending_survives_shutdown_cex :
    (PgParallel.shutdown (PgParallel.registerPending c9Start (js "r1"))).isShutdown
      = true ∧
    js "r1" ∈ (PgParallel.shutdown
        (PgParallel.registerPending c9Start (js "r1"))).pendingRequests := by
  refine ⟨rfl, by decide⟩

/-- C9, amended: every issued request id is in the pending table from
registration on; handling the correlated reply removes it (ids are fresh,
so they occur at most once); but shutdown() leaves the pending table
exactly as it was, so entries outstanding at shutdown survive it. -/
theorem pending_lifecycle {δ : Type} (st : PgParallel.DispatcherState) (rid : List Char)
    (msg : PgParallel.WorkerReplyMsg δ)
    (hcount : st.pendingRequests.count msg.requestId ≤ 1) :
    rid ∈ (PgParallel.registerPending st rid).pendingRequests ∧
    msg.requestId ∉ (PgParallel.handleWorkerMessage st msg).1.pendingRequests ∧
    (PgParallel.shutdown st).pendingRequests = st.pendingRequests := by
  refine ⟨by simp [PgParallel.registerPending], ?_, ?_⟩
  · simp only [PgParallel.handleWorkerMessage]
    split
    · rename_i hmem
      simp only
      intro hmem2
      have h1 : (st.pendingRequests.erase msg.requestId).count msg.requestId
          = st.pendingRequests.count msg.requestId - 1 := List.count_erase_self _ _
      have h2 : 0 < (st.pendingRequests.erase msg.requestId).count msg.requestId :=
        List.count_pos_iff.mpr hmem2
      have h3 : 0 < st.pendingRequests.count msg.requestId :=
        List.count_pos_iff.mpr hmem
      omega
    · rename_i hnot
      simpa using hnot
  · unfold PgParallel.shutdown
    split <;> rfl

/-- C9, witness: the amended lifecycle at a dispatcher with one pending
request, a fresh id to register, and the correlated reply. -/
theorem pending_lifecycle_witness :
    js "r2" ∈ (PgParallel.registerPending c9Pending (js "r2")).pendingRequests ∧
    js "r1" ∉ (PgParallel.handleWorkerMessage c9Pending c9Reply).1.pendingRequests ∧
    (PgParallel.shutdown c9Pending).pendingRequests = c9Pending.pendingRequests :=
  pending_lifecycle c9Pending (js "r2") c9Reply (by decide)

/-- Clearing the busy flag of the sender slot preserves the fleet size. -/
theorem clearBusy_length (ws : List PgParallel.WorkerSlot) (wid : List Char) :
    (PgParallel.clearBusy ws wid).length = ws.length := by
  induction ws with
  | nil => rfl
  | cons w rest ih =>
    simp only [PgParallel.clearBusy]
    split
    · simp
    · simp [ih]

/-- The slot at the first matching index comes back with its busy flag
cleared. -/
theorem clearBusy_get (ws : List PgParallel.WorkerSlot) (wid : List Char) (i : ℕ)
    (w : PgParallel.WorkerSlot) (hget : ws.get? i = some w) (hid : w.workerId = wid)
    (hfirst : ∀ j wj, j < i → ws.get? j = some wj → wj.workerId ≠ wid) :
    (PgParallel.clearBusy ws wid).get? i = some { w with isBusy := false } := by
  induction ws generalizing i with
  | nil => simp at hget
  | cons w0 rest ih =>
    cases i with
    | zero =>
      simp only [List.get?] at hget
      injection hget with hget
      subst hget
      simp [PgParallel.clearBusy, hid]
    | succ j =>
      have h0 : w0.workerId ≠ wid := hfirst 0 w0 (Nat.succ_pos j) rfl
      simp only [PgParallel.clearBusy, if_neg h0, List.get?]
      exact ih j (by simpa using hget)
        (fun k wk hk hgk => hfirst (k + 1) wk (by omega) (by simpa using hgk))

/-- Both branches of the reply handler carry the same cleared worker
array. -/
theorem handleWorkerMessage_workers {δ : Type} (st : PgParallel.DispatcherState)
    (msg : PgParallel.WorkerReplyMsg δ) :
    (PgParallel.handleWorkerMessage st msg).1.workers
      = PgParallel.clearBusy st.workers msg.workerId := by
  simp only [PgParallel.handleWorkerMessage]
  split <;> rfl

/-- The reply handler never moves the round robin cursor. -/
theorem handleWorkerMessage_cursor {δ : Type} (st : PgParallel.DispatcherState)
    (msg : PgParallel.WorkerReplyMsg δ) :
    (PgParallel.handleWorkerMessage st msg).1.currentWorkerIndex
      = st.currentWorkerIndex := by
  simp only [PgParallel.handleWorkerMessage]
  split <;> rfl

/-- A reply with no pending entry settles nothing — but still cleared the
busy flag, as `handleWorkerMessage_workers` shows unconditionally. -/
theorem handleWorkerMessage_miss {δ : Type} (st : PgParallel.DispatcherState)
    (msg : PgParallel.WorkerReplyMsg δ) (h : msg.requestId ∉ st.pendingRequests) :
    (PgParallel.handleWorkerMessage st msg).2 = none := by
  simp [PgParallel.handleWorkerMessage, h]

/-- When the cursor points at a non-busy slot, the round robin scan picks
exactly that slot and advances the cursor past it. -/
theorem getNextWorker_picks_free (st : PgParallel.DispatcherState) (i : ℕ)
    (w : PgParallel.WorkerSlot) (hget : st.workers.get? i = some w)
    (hbusy : w.isBusy = false) (hcur : st.currentWorkerIndex = i) :
    PgParallel.getNextWorker st
      = some (i, { st with currentWorkerIndex := (i + 1) % st.workers.length }) := by
  cases hws : st.workers with
  | nil => rw [hws] at hget; simp at hget
  | cons a l =>
    have hget2 : (a :: l).get? i = some w := by rw [← hws]; exact hget
    have hloop : PgParallel.getNextWorkerLoop (a :: l) i (l.length + 1)
        = some (i, (i + 1) % (a :: l).length) := by
      rw [PgParallel.getNextWorkerLoop]
      rw [List.get?_eq_getElem?] at hget2
      simp [hget2, hbusy]
    simp only [PgParallel.getNextWorker, hws, hcur, List.length_cons, hloop]

/-- C10: every reply unconditionally clears the busy flag of the sender
slot before the pending table is consulted — the cleared fleet is the
same in both branches of the handler, so it holds in particular for
replies with no pending entry, such as a SESSION_QUERY reply arriving
while the session body still runs; and a slot so cleared is picked again
by the round robin scan as soon as the cursor reaches it. -/
theorem reply_clears_busy_then_reselects {δ : Type} (st : PgParallel.DispatcherState)
    (msg : PgParallel.WorkerReplyMsg δ) (i : ℕ) (w : PgParallel.WorkerSlot)
    (hget : st.workers.get? i = some w) (hid : w.workerId = msg.workerId)
    (hfirst : ∀ j wj, j < i → st.workers.get? j = some wj → wj.workerId ≠ msg.workerId) :
    (PgParallel.handleWorkerMessage st msg).1.workers.get? i
        = some { w with isBusy := false } ∧
    (msg.requestId ∉ st.pendingRequests → (PgParallel.handleWorkerMessage st msg).2 = none) ∧
    (st.currentWorkerIndex = i →
      PgParallel.getNextWorker (PgParallel.handleWorkerMessage st msg).1
        = some (i, { (PgParallel.handleWorkerMessage st msg).1 with
            currentWorkerIndex :=
              (i + 1) % (PgParallel.handleWorkerMessage st msg).1.workers.length })) := by
  have hw : (PgParallel.handleWorkerMessage st msg).1.workers
      = PgParallel.clearBusy st.workers msg.workerId := handleWorkerMessage_workers st msg
  have hg : (PgParallel.clearBusy st.workers msg.workerId).get? i
      = some { w with isBusy := false } :=
    clearBusy_get st.workers msg.workerId i w hget hid hfirst
  refine ⟨by rw [hw]; exact hg, fun h => handleWorkerMessage_miss st msg h, fun hcur => ?_⟩
  exact getNextWorker_picks_free (PgParallel.handleWorkerMessage st msg).1 i
    { w with isBusy := false } (by rw [hw]; exact hg) rfl
    (by rw [handleWorkerMessage_cursor st msg, hcur])

/-- A dispatcher with two busy workers, the cursor on the second, and no
pending entry for the reply about to arrive. -/
def c10St : PgParallel.DispatcherState :=
  { workers := [{ workerId := js "w0", isBusy := true },
                { workerId := js "w1", isBusy := true }],
    currentWorkerIndex := 1, pendingRequests := [], isShutdown := false }

/-- A reply from the second worker whose request id has no pending
entry. -/
def c10Msg : PgParallel.WorkerReplyMsg Unit := ⟨js "r9", js "w1", .ok ()⟩

/-- C10, witness: after that reply the second slot is no longer busy,
nothing is settled, and the scheduler picks that slot again. -/
theorem reply_clears_busy_witness :
    (PgParallel.handleWorkerMessage c10St c10Msg).1.workers.get? 1
        = some { workerId := js "w1", isBusy := false } ∧
    (PgParallel.handleWorkerMessage c10St c10Msg).2 = none ∧
    PgParallel.getNextWorker (PgParallel.handleWorkerMessage c10St c10Msg).1
      = some (1, { (PgParallel.handleWorkerMessage c10St c10Msg).1 with
          currentWorkerIndex :=
            (1 + 1) % (PgParallel.handleWorkerMessage c10St c10Msg).1.workers.length }) := by
  have h := reply_clears_busy_then_reselects c10St c10Msg 1
    { workerId := js "w1", isBusy := true } rfl rfl
    (by
      intro j wj hj hgj
      interval_cases j
      simp only [c10St, List.get?] at hgj
      injection hgj with hgj
      subst hgj
      decide)
  exact ⟨h.1, h.2.1 (by decide), h.2.2 rfl⟩
